import Mathlib

/-!
# Verification of the dbus-starlink bridge (`starlink.py`)

Shallow embedding of the single-file driver `starlink.py`, which bridges a
Starlink dish (gRPC `Handle` endpoint) onto a Victron D-Bus GPS service.

Modelling conventions:

* gRPC / protobuf values are plain Lean structures.  Optional protobuf
  fields (`HasField`) are `Option`.
* Coordinates are `ℚ` (the Python floats only ever flow through unchanged
  or get truncated by `int(...)`, and every concrete value in the spec is a
  short decimal, so rational arithmetic is exact and faithful).
* Python exceptions are explicit: a computation that can raise returns an
  `Except PyError _`, or a pair `state × Option PyError` when partial
  side effects before the raise matter.
* The transport layer (gRPC channel) is an *input*: each embedded request
  takes the transport outcome `Except RpcError response` for that call.
-/

/-- Transport-level gRPC failures (`grpc.RpcError`): channel unreachable or
the 10-second deadline exceeded. -/
inductive RpcError where
  | unavailable
  | deadlineExceeded
  deriving DecidableEq, Repr

/-- Python exceptions that the embedded code can raise. -/
inductive PyError where
  /-- a re-raised `grpc.RpcError` -/
  | rpcError (e : RpcError)
  /-- attribute access on `None` (e.g. `None.status`) -/
  | attributeError
  /-- `int(None)` -/
  | typeError
  deriving DecidableEq, Repr

/-- Application-level status envelope carried by every `Handle` response. -/
structure Status where
  code : Int
  message : String
  deriving DecidableEq, Repr

/-- `device_info` message: `id` is required, the two versions are optional
(`HasField` semantics). -/
structure DeviceInfo where
  id : String
  software_version : Option String
  hardware_version : Option String
  deriving DecidableEq, Repr

/-- Well-formed response to `get_device_info` (status envelope plus the
`get_device_info.device_info` payload). -/
structure GetDeviceInfoResponse where
  status : Status
  device_info : DeviceInfo
  deriving DecidableEq, Repr

/-- `lla` position triple of a `get_location` response. -/
structure LLA where
  lat : ℚ
  lon : ℚ
  alt : ℚ
  deriving DecidableEq, Repr

/-- Well-formed response to `get_location`: status envelope plus `r.location`,
whose `lla` field is optional (`location.HasField('lla')`). -/
structure GetLocationResponse where
  status : Status
  lla : Option LLA
  deriving DecidableEq, Repr

/-- Return value of `Dishy.get_position`: the Python dict
`{"latitude": _, "longitude": _, "altitude": _}`, each value a float or
`None`. -/
structure Position where
  latitude : Option ℚ
  longitude : Option ℚ
  altitude : Option ℚ
  deriving DecidableEq, Repr

/-- `Dishy._make_request` (starlink.py:33-43): on a transport error, log and
re-raise; on a well-formed response with non-zero status code, log a warning
and return `None`; otherwise return the response.  The transport outcome of
the underlying `self.stub.Handle(...)` call is the argument `t`; `getStatus`
reads `response.status`. -/
def make_request {α : Type} (getStatus : α → Status) (t : Except RpcError α) :
    Except RpcError (Option α) :=
  match t with
  | .error e => .error e
  | .ok r => if (getStatus r).code ≠ 0 then .ok none else .ok (some r)

/-- `Dishy.get_device_info` (starlink.py:45-47):
`r = self._make_request(...); return r.get_device_info.device_info`.
When `_make_request` returned `None` (non-zero status), the attribute access
`r.get_device_info` raises `AttributeError`. -/
def get_device_info (t : Except RpcError GetDeviceInfoResponse) :
    Except PyError DeviceInfo :=
  match make_request GetDeviceInfoResponse.status t with
  | .error e => .error (.rpcError e)
  | .ok none => .error .attributeError
  | .ok (some r) => .ok r.device_info

/-- `Dishy.get_position` (starlink.py:50-62):
`r = self._make_request(...)`, then `if r.status.code != 0: ... return` the
all-`None` dict, else read `r.location` guarded by `HasField('lla')`.
When `_make_request` returned `None`, the access `r.status` raises
`AttributeError` — the explicit non-zero-status branch below is unreachable. -/
def get_position (t : Except RpcError GetLocationResponse) :
    Except PyError Position :=
  match make_request GetLocationResponse.status t with
  | .error e => .error (.rpcError e)
  | .ok none => .error .attributeError
  | .ok (some r) =>
    if r.status.code ≠ 0 then
      .ok ⟨none, none, none⟩
    else
      .ok ⟨r.lla.map LLA.lat, r.lla.map LLA.lon, r.lla.map LLA.alt⟩

/-!
## SHA-256 (`hashlib.sha256`)

`starlink.py:68` derives the short device id as
`sha256(info.id.encode()).hexdigest()[:8]`.  `hashlib.sha256` is the
FIPS 180-4 SHA-256 function; it is embedded here executably over byte lists
(`Nat` values `< 256`), with 32-bit words as `Nat` reduced `% 2 ^ 32`.
-/

namespace Sha256

/-- 2^32, the word modulus. -/
def M32 : Nat := 4294967296

/-- Right-rotation of a 32-bit word, expressed arithmetically:
the low `n` bits move to the top, the rest shifts down. -/
def rotr (n x : Nat) : Nat := (x / 2 ^ n + x % 2 ^ n * 2 ^ (32 - n)) % M32

/-- Bitwise complement within 32 bits (for `x < 2^32`). -/
def bnot32 (x : Nat) : Nat := (M32 - 1) - x % M32

/-- FIPS 180-4 `Ch(e,f,g)`. -/
def ch (e f g : Nat) : Nat := (e &&& f) ^^^ (bnot32 e &&& g)

/-- FIPS 180-4 `Maj(a,b,c)`. -/
def maj (a b c : Nat) : Nat := (a &&& b) ^^^ (a &&& c) ^^^ (b &&& c)

/-- FIPS 180-4 `Σ0`. -/
def bigSigma0 (a : Nat) : Nat := rotr 2 a ^^^ rotr 13 a ^^^ rotr 22 a

/-- FIPS 180-4 `Σ1`. -/
def bigSigma1 (e : Nat) : Nat := rotr 6 e ^^^ rotr 11 e ^^^ rotr 25 e

/-- FIPS 180-4 `σ0`. -/
def smallSigma0 (x : Nat) : Nat := rotr 7 x ^^^ rotr 18 x ^^^ x / 2 ^ 3

/-- FIPS 180-4 `σ1`. -/
def smallSigma1 (x : Nat) : Nat := rotr 17 x ^^^ rotr 19 x ^^^ x / 2 ^ 10

/-- The 64 SHA-256 round constants (FIPS 180-4 section 4.2.2: the first 32
bits of the fractional parts of the cube roots of the first 64 primes),
written in decimal. -/
def K : List Nat :=
  [1116352408, 1899447441, 3049323471, 3921009573, 961987163,
   1508970993, 2453635748, 2870763221, 3624381080, 310598401,
   607225278, 1426881987, 1925078388, 2162078206, 2614888103,
   3248222580, 3835390401, 4022224774, 264347078, 604807628,
   770255983, 1249150122, 1555081692, 1996064986, 2554220882,
   2821834349, 2952996808, 3210313671, 3336571891, 3584528711,
   113926993, 338241895, 666307205, 773529912, 1294757372,
   1396182291, 1695183700, 1986661051, 2177026350, 2456956037,
   2730485921, 2820302411, 3259730800, 3345764771, 3516065817,
   3600352804, 4094571909, 275423344, 430227734, 506948616,
   659060556, 883997877, 958139571, 1322822218, 1537002063,
   1747873779, 1955562222, 2024104815, 2227730452, 2361852424,
   2428436474, 2756734187, 3204031479, 3329325298]

/-- The eight 32-bit working registers of SHA-256. -/
structure Hash where
  a : Nat
  b : Nat
  c : Nat
  d : Nat
  e : Nat
  f : Nat
  g : Nat
  h : Nat
  deriving DecidableEq, Repr

/-- The SHA-256 initial hash value `H(0)` (FIPS 180-4 section 5.3.3),
written in decimal. -/
def initHash : Hash :=
  ⟨1779033703, 3144134277, 1013904242, 2773480762,
   1359893119, 2600822924, 528734635, 1541459225⟩

/-- One SHA-256 round with constant-and-schedule pair `kw`. -/
def round (st : Hash) (kw : Nat × Nat) : Hash :=
  let t1 := (st.h + bigSigma1 st.e + ch st.e st.f st.g + kw.1 + kw.2) % M32
  let t2 := (bigSigma0 st.a + maj st.a st.b st.c) % M32
  ⟨(t1 + t2) % M32, st.a, st.b, st.c, (st.d + t1) % M32, st.e, st.f, st.g⟩

/-- Big-endian packing of bytes into 32-bit words. -/
def words : List Nat → List Nat
  | b0 :: b1 :: b2 :: b3 :: rest =>
    (b0 * 16777216 + b1 * 65536 + b2 * 256 + b3) % M32 :: words rest
  | _ => []

/-- Extends the message schedule `n` more words; `ws` is the schedule so far,
most recent word first. -/
def extendRev : Nat → List Nat → List Nat
  | 0, ws => ws
  | n + 1, ws =>
    let w := (smallSigma1 (ws.getD 1 0) + ws.getD 6 0 +
              smallSigma0 (ws.getD 14 0) + ws.getD 15 0) % M32
    extendRev n (w :: ws)

/-- The 64-word message schedule of one block (given as 16 words). -/
def schedule (block : List Nat) : List Nat := (extendRev 48 block.reverse).reverse

/-- Compression of one 64-byte block into the chaining state. -/
def compressBlock (st : Hash) (block : List Nat) : Hash :=
  let e := (K.zip (schedule (words block))).foldl round st
  ⟨(st.a + e.a) % M32, (st.b + e.b) % M32, (st.c + e.c) % M32,
   (st.d + e.d) % M32, (st.e + e.e) % M32, (st.f + e.f) % M32,
   (st.g + e.g) % M32, (st.h + e.h) % M32⟩

/-- The 8-byte big-endian encoding of the bit length. -/
def lenBytes (n : Nat) : List Nat :=
  [n / 2 ^ 56 % 256, n / 2 ^ 48 % 256, n / 2 ^ 40 % 256, n / 2 ^ 32 % 256,
   n / 2 ^ 24 % 256, n / 2 ^ 16 % 256, n / 2 ^ 8 % 256, n % 256]

/-- FIPS 180-4 padding: a `0x80` byte, zeros to 56 mod 64, then the 64-bit
big-endian bit length. -/
def pad (msg : List Nat) : List Nat :=
  msg ++ 0x80 :: List.replicate ((119 - msg.length % 64) % 64) 0 ++
    lenBytes (8 * msg.length)

/-- Folds `compressBlock` over successive 64-byte blocks; `fuel` bounds the
recursion (the byte count suffices). -/
def processAux : Nat → Hash → List Nat → Hash
  | _, st, [] => st
  | 0, st, _ :: _ => st
  | fuel + 1, st, b :: bs =>
    processAux fuel (compressBlock st ((b :: bs).take 64)) ((b :: bs).drop 64)

/-- SHA-256 of a byte sequence, as the final chaining state. -/
def hash (msg : List Nat) : Hash :=
  processAux (pad msg).length initHash (pad msg)

/-- Big-endian bytes of one 32-bit word. -/
def wordBytes (w : Nat) : List Nat :=
  [w / 2 ^ 24 % 256, w / 2 ^ 16 % 256, w / 2 ^ 8 % 256, w % 256]

/-- The 32-byte SHA-256 digest. -/
def digest (st : Hash) : List Nat :=
  wordBytes st.a ++ wordBytes st.b ++ wordBytes st.c ++ wordBytes st.d ++
  wordBytes st.e ++ wordBytes st.f ++ wordBytes st.g ++ wordBytes st.h

/-- The lowercase character for one hex digit (`n < 16`): code 48 is the
digit zero, code 87 + 10 is the letter a. -/
def hexDigitChar (n : Nat) : Char :=
  if n < 10 then Char.ofNat (48 + n) else Char.ofNat (87 + n % 16)

/-- The sixteen lowercase hexadecimal digit characters. -/
def hexDigits : List Char := (List.range 16).map hexDigitChar

/-- Two lowercase hex characters per byte, `"%02x"` style. -/
def hexChars (bs : List Nat) : List Char :=
  bs.foldr (fun b acc => hexDigitChar (b / 16 % 16) :: hexDigitChar (b % 16) :: acc) []

/-- `hashlib`'s `.hexdigest()`: the digest as a lowercase hex string. -/
def hexdigest (msg : List Nat) : String := String.mk (hexChars (digest (hash msg)))

/-- UTF-8 encoding of one code point (Python `str.encode()` default). -/
def utf8Char (c : Char) : List Nat :=
  let n := c.toNat
  if n < 0x80 then [n]
  else if n < 0x800 then [0xc0 + n / 64, 0x80 + n % 64]
  else if n < 0x10000 then [0xe0 + n / 4096, 0x80 + n / 64 % 64, 0x80 + n % 64]
  else [0xf0 + n / 262144, 0x80 + n / 4096 % 64, 0x80 + n / 64 % 64, 0x80 + n % 64]

/-- UTF-8 encoding of a string (Python `str.encode()`). -/
def utf8Encode (s : String) : List Nat := s.data.foldr (fun c acc => utf8Char c ++ acc) []

end Sha256

/-- `sha256(x.encode()).hexdigest()[:8]` (starlink.py:68).  Python strings are
sequences of code points, so the slice `[:8]` is `String.take 8`. -/
def mkShortId (x : String) : String := (Sha256.hexdigest (Sha256.utf8Encode x)).take 8

/-- Modelled from the spec: `shortId` = "first 8 hex characters of a
cryptographic hash (SHA-256) of `DeviceInfo.id`" (spec section 3,
DeviceIdentity).  Stated independently of `mkShortId` for the refinement
comparison in C6. -/
def specShortId (x : String) : String :=
  String.mk ((Sha256.hexChars (Sha256.digest (Sha256.hash (Sha256.utf8Encode x)))).take 8)

/-!
## The published D-Bus service (`DbusService`, starlink.py:64-126)
-/

/-- Python `int(...)` applied to a float (modelled in `ℚ`): truncation toward
zero. -/
def pyInt (q : ℚ) : Int := Int.tdiv q.num (q.den : Int)

/-- The published attribute tree of one device instance: every path added by
`DbusService.__init__` (starlink.py:76-104). -/
structure PublishedTree where
  processName : String
  processVersion : String
  connection : String
  deviceInstance : Int
  productId : Int
  productName : String
  firmwareVersion : String
  hardwareVersion : String
  connected : Int
  serial : String
  state : Int
  fix : Int
  latitude : ℚ
  longitude : ℚ
  altitude : ℚ
  customName : String
  deriving DecidableEq, Repr

/-- The whole service object state once `__init__` has completed. -/
structure DbusServiceState where
  /-- the derived short device id (`self.id`) -/
  id : String
  /-- `self.servicename` -/
  servicename : String
  /-- the persisted settings path of the custom name -/
  settingsPath : String
  /-- the value held by the settings store -/
  settingsCustomName : String
  /-- the published attribute tree -/
  tree : PublishedTree
  /-- whether `self._dbusservice.register()` ran -/
  registered : Bool
  deriving DecidableEq, Repr

namespace DbusService

/-- Default value of the `CustomName` setting (starlink.py:112). -/
def defaultCustomName : String := "Starlink"

/-- The persisted settings path built in `_setup_settings` (starlink.py:110-112):
`/Settings/Devices/starlink_<id>/CustomName`. -/
def customNameSettingsPath (id : String) : String :=
  "/Settings/Devices/starlink_" ++ id ++ "/CustomName"

/-- `DbusService.refresh` (starlink.py:116-126).  The transport outcome of the
underlying `get_location` call is `t`; `tree` is the published tree before the
call.  Returns the tree after the call together with the exception the call
raised, if any (writes before the raising point stay applied, matching
Python's sequential field assignments). -/
def refresh (t : Except RpcError GetLocationResponse) (tree : PublishedTree) :
    PublishedTree × Option PyError :=
  match get_position t with
  | .error e => (tree, some e)
  | .ok loc =>
    match loc.latitude, loc.longitude with
    | some la, some lo =>
      match loc.altitude with
      | some al =>
        ({ tree with fix := 1, latitude := la, longitude := lo,
                     altitude := (pyInt al : ℚ) }, none)
      | none =>
        -- `int(None)` raises TypeError after `/Fix`, latitude and longitude
        -- were already written
        ({ tree with fix := 1, latitude := la, longitude := lo }, some .typeError)
    | _, _ => ({ tree with fix := 0 }, none)

/-- `DbusService.__init__` (starlink.py:65-107).  Inputs: the version string
read at module load, the transport outcome of the one-time `get_device_info`
call, the value the settings backend holds for `CustomName` (if any; the
default seeds it otherwise), and the transport outcome of the `get_location`
call made by the immediate first `refresh()`.  An exception anywhere aborts
construction: the `Except.error` result. -/
def init (version : String) (tDev : Except RpcError GetDeviceInfoResponse)
    (stored : Option String) (tLoc : Except RpcError GetLocationResponse) :
    Except PyError DbusServiceState :=
  match get_device_info tDev with
  | .error e => .error e
  | .ok info =>
    let id := mkShortId info.id
    let tree0 : PublishedTree :=
      { processName := "dbus-starlink"
        processVersion := version
        connection := "gRPC"
        deviceInstance := 1
        productId := 45108
        productName := "Starlink"
        firmwareVersion := info.software_version.getD "N/A"
        hardwareVersion := info.hardware_version.getD "N/A"
        connected := 1
        serial := info.id
        state := 0x100
        fix := 0
        latitude := 0
        longitude := 0
        altitude := 0
        customName := stored.getD defaultCustomName }
    match refresh tLoc tree0 with
    | (tree1, none) =>
      .ok { id := id
            servicename := "com.victronenergy.gps.starlink_" ++ id
            settingsPath := customNameSettingsPath id
            settingsCustomName := stored.getD defaultCustomName
            tree := tree1
            registered := true }
    | (_, some e) => .error e

/-!
### The custom-name write paths

`__init__` wires `/CustomName` as writable with
`onchangecallback=lambda p, v, key=...: self._handle_writable_setting_change(key, p, v)`
(starlink.py:103), but the class `DbusService` defines **no** method named
`_handle_writable_setting_change`; Python resolves the attribute at call
time, so invoking the callback raises `AttributeError`.  The settings store
is created as `SettingsDevice(dbus.SystemBus(), supported_settings, None)`
(starlink.py:114), whose third argument — the callback invoked on an
externally-initiated settings change — is `None`.
-/

/-- The body of the `/CustomName` change callback: the attribute lookup
`self._handle_writable_setting_change` fails, so the call raises
`AttributeError` before doing anything. -/
def handle_writable_setting_change (_s : DbusServiceState)
    (_key _path _newValue : String) : Except PyError DbusServiceState :=
  .error .attributeError

/-- An external bus client writing value `v` to the published `/CustomName`:
`vedbus` runs the change callback before accepting the value, so the raised
`AttributeError` leaves both the settings store and the published tree
untouched. -/
def customNameExternalWrite (s : DbusServiceState) (v : String) :
    DbusServiceState × Option PyError :=
  match handle_writable_setting_change s "CustomName" "/CustomName" v with
  | .error e => (s, some e)
  | .ok s2 => (s2, none)

/-- The settings-change event callback handed to `SettingsDevice`: `None`. -/
def settingsEventCallback : Option (DbusServiceState → String → DbusServiceState) :=
  none

/-- An externally-initiated change of the persisted `CustomName` setting to
`v`: the backend persists it, then `SettingsDevice` would notify through its
event callback — which is `None`, so the published `/CustomName` keeps its
old value. -/
def settingsExternalChange (s : DbusServiceState) (v : String) : DbusServiceState :=
  let s2 := { s with settingsCustomName := v }
  match settingsEventCallback with
  | none => s2
  | some f => f s2 v

end DbusService

/-!
## The scheduler (`main`, starlink.py:128-140)

`main` registers the recurring timer with `GLib.timeout_add(60000,
service.refresh)`.  GLib timeout semantics: the source fires after each
60-second interval and stays armed only while the callback returns a truthy
value; a falsy return (Python `None` or `False`) removes the source.
-/

/-- Truthiness of the Python value returned by a GLib timeout callback
(`None` or a bool in this program). -/
def pyTruthy : Option Bool → Bool
  | none => false
  | some b => b

/-- `DbusService.refresh` as the GLib callback: its effect paired with its
Python return value.  The method body (starlink.py:116-126) has no `return`
statement on any branch, so the return value is always `None`. -/
def refreshCallback (t : Except RpcError GetLocationResponse)
    (tree : PublishedTree) : (PublishedTree × Option PyError) × Option Bool :=
  (DbusService.refresh t tree, none)

/-- Number of times a `GLib.timeout_add` callback runs within `n` elapsed
intervals, when each run returns `ret`: the source fires, then survives only
if the return value is truthy. -/
def timeoutInvocations (ret : Option Bool) : Nat → Nat
  | 0 => 0
  | n + 1 => 1 + (if pyTruthy ret then timeoutInvocations ret n else 0)

/-!
## Shared sample values and helper lemmas
-/

/-- A reachable published tree holding a previously acquired fix (the example
state of spec section 8). -/
def sampleTree : PublishedTree :=
  { processName := "dbus-starlink"
    processVersion := "v1"
    connection := "gRPC"
    deviceInstance := 1
    productId := 45108
    productName := "Starlink"
    firmwareVersion := "N/A"
    hardwareVersion := "N/A"
    connected := 1
    serial := "KU123456789"
    state := 0x100
    fix := 1
    latitude := 37
    longitude := -122
    altitude := 10
    customName := "Starlink" }

/-- A reachable full service state built around `sampleTree`. -/
def sampleState : DbusServiceState :=
  { id := "6303b763"
    servicename := "com.victronenergy.gps.starlink_6303b763"
    settingsPath := "/Settings/Devices/starlink_6303b763/CustomName"
    settingsCustomName := "Starlink"
    tree := sampleTree
    registered := true }

theorem Sha256.hexChars_cons (b : Nat) (bs : List Nat) :
    Sha256.hexChars (b :: bs) =
      Sha256.hexDigitChar (b / 16 % 16) :: Sha256.hexDigitChar (b % 16) ::
        Sha256.hexChars bs := rfl

theorem Sha256.hexChars_length (bs : List Nat) :
    (Sha256.hexChars bs).length = 2 * bs.length := by
  induction bs with
  | nil => rfl
  | cons b bs ih => rw [Sha256.hexChars_cons]; simp [ih]; omega

theorem Sha256.digest_length (st : Sha256.Hash) : (Sha256.digest st).length = 32 := rfl

theorem Sha256.hexdigest_length (m : List Nat) : (Sha256.hexdigest m).length = 64 := by
  show (Sha256.hexChars (Sha256.digest (Sha256.hash m))).length = 64
  rw [Sha256.hexChars_length, Sha256.digest_length]

theorem Sha256.hexDigitChar_mem (n : Nat) (h : n < 16) :
    Sha256.hexDigitChar n ∈ Sha256.hexDigits :=
  List.mem_map_of_mem Sha256.hexDigitChar (List.mem_range.mpr h)

theorem Sha256.hexChars_mem (bs : List Nat) (c : Char) (h : c ∈ Sha256.hexChars bs) :
    c ∈ Sha256.hexDigits := by
  induction bs with
  | nil => cases h
  | cons b bs ih =>
    rw [Sha256.hexChars_cons, List.mem_cons, List.mem_cons] at h
    rcases h with rfl | rfl | h
    · exact Sha256.hexDigitChar_mem _ (Nat.mod_lt _ (by decide))
    · exact Sha256.hexDigitChar_mem _ (Nat.mod_lt _ (by decide))
    · exact ih h

theorem String.length_eq_data_length (s : String) : s.length = s.data.length := by
  cases s; rfl

theorem mkShortId_data (x : String) :
    (mkShortId x).data =
      (Sha256.hexChars (Sha256.digest (Sha256.hash (Sha256.utf8Encode x)))).take 8 := by
  rw [mkShortId, String.data_take]; rfl

set_option maxRecDepth 40000 in
set_option maxHeartbeats 4000000 in
/-- Claim C6: the derived short id is the first 8 hexadecimal characters of
the SHA-256 hash of the device-id string; derivation is pure and total, so any
two resolutions of the same id agree; the id `"KU123456789"` resolves to
`"6303b763"` (first 8 hex chars of its SHA-256); the embedded hash is genuine
SHA-256 (FIPS 180-4 test vectors); and on a successful startup the short id
namespaces both the published service name and the persisted settings path. -/
theorem mkShortId_spec :
    (∀ x : String, mkShortId x = specShortId x) ∧
    (∀ x : String, (mkShortId x).length = 8) ∧
    (∀ x : String, (mkShortId x).data.all (Sha256.hexDigits.contains ·) = true) ∧
    mkShortId "KU123456789" = "6303b763" ∧
    Sha256.hexdigest (Sha256.utf8Encode "abc") =
      "ba7816bf8f01cfea414140de5dae2223b00361a396177a9cb410ff61f20015ad" ∧
    Sha256.hexdigest [] =
      "e3b0c44298fc1c149afbf4c8996fb92427ae41e4649b934ca495991b7852b855" ∧
    (∀ (version m m2 : String) (info : DeviceInfo) (stored : Option String) (lla : LLA),
      ∃ tr : PublishedTree,
        DbusService.init version
            (.ok { status := { code := 0, message := m }, device_info := info })
            stored
            (.ok { status := { code := 0, message := m2 }, lla := some lla })
          = .ok { id := mkShortId info.id
                  servicename := "com.victronenergy.gps.starlink_" ++ mkShortId info.id
                  settingsPath :=
                    "/Settings/Devices/starlink_" ++ mkShortId info.id ++ "/CustomName"
                  settingsCustomName := stored.getD DbusService.defaultCustomName
                  tree := tr
                  registered := true }) := by
  refine ⟨?_, ?_, ?_, ?_, ?_, ?_, ?_⟩
  · intro x
    rw [mkShortId, Sha256.hexdigest, String.take_eq]
    rfl
  · intro x
    rw [String.length_eq_data_length, mkShortId_data, List.length_take,
      Sha256.hexChars_length, Sha256.digest_length]
    decide
  · intro x
    rw [List.all_eq_true]
    intro c hc
    rw [mkShortId_data] at hc
    have hm := Sha256.hexChars_mem _ c (List.take_subset _ _ hc)
    exact List.elem_iff.mpr hm
  · decide
  · decide
  · decide
  · intro version m m2 info stored lla
    exact ⟨_, rfl⟩

/-!
## Claim theorems
-/

/-- Claim C1 (code bug): on a well-formed `GetLocation` response whose status
code is non-zero, `get_position` does **not** return the all-absent Position:
`_make_request` already returned `None` for that response, so the subsequent
`r.status.code` access (starlink.py:53) raises `AttributeError`.  Evaluated at
the failing input (status code 1, location present). -/
theorem get_position_nonzero_status_raises :
    get_position (.ok { status := { code := 1, message := "no gps" },
                        lla := some { lat := 47.6, lon := -122.3, alt := 15.7 } })
      = .error .attributeError := rfl

/-- Claim C2 counterexample: a transport failure (RPC timeout) during a
steady-state `refresh()` is **not** contained: at the concrete pre-call state
`sampleTree`, `refresh` re-raises the `grpc.RpcError` past the publisher
boundary (second component `some …`, i.e. an uncaught exception), refuting
"does not raise past the publisher boundary". -/
theorem refresh_transport_failure_cex :
    DbusService.refresh (.error .deadlineExceeded) sampleTree
      = (sampleTree, some (.rpcError .deadlineExceeded)) ∧
    (DbusService.refresh (.error .deadlineExceeded) sampleTree).2.isSome = true := by
  decide

/-- Claim C2 as amended: for every transport-level failure during a
steady-state `refresh()` call, every published telemetry field (fix,
latitude, longitude, altitude — indeed the whole published tree) retains its
value from before the call, but the failure is not contained: `_make_request`
logs it and re-raises, and `refresh` has no handler, so the `RpcError`
propagates out of `refresh()` to its caller. -/
theorem refresh_transport_failure_retains_and_raises
    (e : RpcError) (tree : PublishedTree) :
    DbusService.refresh (.error e) tree = (tree, some (.rpcError e)) := rfl

/-- Claim C3 (code bug): the custom-name round trip is broken in both
directions.  Writing `"MyDish"` through the published writable path raises
`AttributeError` (the callback targets the undefined method
`_handle_writable_setting_change`) and forwards nothing to the settings
store; an externally-initiated settings change persists the new value but
never updates the published `/CustomName` (the `SettingsDevice` event
callback is `None`). -/
theorem custom_name_paths_broken :
    DbusService.customNameExternalWrite sampleState "MyDish"
      = (sampleState, some .attributeError) ∧
    (DbusService.settingsExternalChange sampleState "MyDish").tree.customName
      = "Starlink" ∧
    (DbusService.settingsExternalChange sampleState "MyDish").settingsCustomName
      = "MyDish" ∧
    DbusService.settingsEventCallback = none := by
  refine ⟨rfl, rfl, rfl, rfl⟩

/-- Claim C4 (code bug): the timer registered by
`GLib.timeout_add(60000, service.refresh)` is one-shot in effect, not
recurring: `refresh` returns `None` on every branch, GLib treats the falsy
return as "remove the source", so over any number of elapsed 60-second
intervals the scheduler invokes `refresh` at most once (exactly once from the
first interval on); a callback returning `True` would have run on every
interval. -/
theorem scheduler_invokes_refresh_once
    (t : Except RpcError GetLocationResponse) (tree : PublishedTree) (n : Nat) :
    (refreshCallback t tree).2 = none ∧
    timeoutInvocations (refreshCallback t tree).2 n = min n 1 ∧
    timeoutInvocations (some true) n = n := by
  refine ⟨rfl, ?_, ?_⟩
  · cases n with
    | zero => rfl
    | succ k => simp [timeoutInvocations, pyTruthy, refreshCallback, Nat.min_def]
  · induction n with
    | zero => rfl
    | succ k ih => simp [timeoutInvocations, pyTruthy, ih]; omega

/-- Claim C5: whenever the obtained Position lacks latitude or longitude,
`refresh` sets the published fix flag to 0 and changes nothing else: the
published latitude, longitude and altitude (and every static field and the
custom name) keep their pre-call values, and no exception is raised. -/
theorem refresh_no_fix_frame (t : Except RpcError GetLocationResponse)
    (tree : PublishedTree) (p : Position) (h : get_position t = .ok p)
    (habs : p.latitude = none ∨ p.longitude = none) :
    DbusService.refresh t tree = ({ tree with fix := 0 }, none) := by
  unfold DbusService.refresh
  rw [h]
  rcases hla : p.latitude with _ | la <;> rcases hlo : p.longitude with _ | lo <;>
    simp_all

/-- Witness for C5 at a concrete input: a successful response without an
`lla` field, against the sample tree holding a previous fix. -/
theorem refresh_no_fix_frame_witness :
    DbusService.refresh (.ok { status := { code := 0, message := "" }, lla := none })
        sampleTree
      = ({ sampleTree with fix := 0 }, none) :=
  refresh_no_fix_frame (.ok { status := { code := 0, message := "" }, lla := none })
    sampleTree { latitude := none, longitude := none, altitude := none }
    (by rfl) (Or.inl rfl)

/-- Claim C7: when the obtained Position has latitude and longitude present,
`refresh` sets fix=1, writes latitude and longitude unchanged, and writes the
altitude truncated toward zero to an integer; in particular
`{lat: 47.6, lon: -122.3, alt: 15.7}` publishes `{fix:1, lat:47.6,
lon:-122.3, alt:15}`. -/
theorem refresh_fix_truncates_altitude
    (m : String) (la lo al : ℚ) (tree : PublishedTree) :
    DbusService.refresh
        (.ok { status := { code := 0, message := m },
               lla := some { lat := la, lon := lo, alt := al } }) tree
      = ({ tree with fix := 1, latitude := la, longitude := lo,
                     altitude := (pyInt al : ℚ) }, none) ∧
    pyInt 15.7 = 15 ∧
    DbusService.refresh
        (.ok { status := { code := 0, message := "" },
               lla := some { lat := 47.6, lon := -122.3, alt := 15.7 } }) sampleTree
      = ({ sampleTree with fix := 1, latitude := 47.6, longitude := -122.3,
                           altitude := 15 }, none) := by
  have h157 : pyInt 15.7 = 15 := by
    rw [pyInt, ← Rat.ofScientific_eq_ofScientific, Rat.ofScientific_def]
    decide
  refine ⟨rfl, h157, ?_⟩
  have hgen :
      DbusService.refresh
          (.ok { status := { code := 0, message := "" },
                 lla := some { lat := 47.6, lon := -122.3, alt := 15.7 } }) sampleTree
        = ({ sampleTree with fix := 1, latitude := 47.6, longitude := -122.3,
                             altitude := (pyInt 15.7 : ℚ) }, none) := rfl
  rw [hgen, h157]
  norm_num

/-- Claim C8: if the one-time device-info fetch fails during `__init__`, the
service never finishes construction: `DbusService.init` aborts with the
propagated error before any path is added or `register()` is reached, so no
published tree exists (the first conjunct covers transport failures; the
second covers a well-formed response with non-zero status, where
`get_device_info` raises `AttributeError`). -/
theorem init_device_info_failure_aborts
    (version : String) (e : RpcError) (stored : Option String)
    (tLoc : Except RpcError GetLocationResponse) (st : Status) (info : DeviceInfo) :
    DbusService.init version (.error e) stored tLoc = .error (.rpcError e) ∧
    (st.code = 0 ∨
      DbusService.init version (.ok { status := st, device_info := info }) stored tLoc
        = .error .attributeError) := by
  refine ⟨rfl, ?_⟩
  rcases eq_or_ne st.code 0 with h | h
  · exact Or.inl h
  · right
    unfold DbusService.init get_device_info make_request
    simp [h]

/-- Claim C9: `refresh` is idempotent on the published state: with an
unchanged upstream result, running it again from the state the first call
produced yields that same state (and the same outcome). -/
theorem refresh_idempotent (t : Except RpcError GetLocationResponse)
    (tree : PublishedTree) :
    DbusService.refresh t (DbusService.refresh t tree).1
      = DbusService.refresh t tree := by
  unfold DbusService.refresh
  cases hg : get_position t with
  | error e => rfl
  | ok loc =>
    rcases loc with ⟨la, lo, al⟩
    rcases la with _ | la <;> rcases lo with _ | lo <;> rcases al with _ | al <;> rfl

/-- Claim C10: a status-0 `GetLocation` response without a location yields
the all-absent Position and `refresh` then takes the no-fix branch; moreover
the three fields of any Position `get_position` returns are all present or
all absent together. -/
theorem get_position_all_or_nothing
    (m : String) (tree : PublishedTree)
    (t : Except RpcError GetLocationResponse) (p : Position)
    (h : get_position t = .ok p) :
    get_position (.ok { status := { code := 0, message := m }, lla := none })
      = .ok { latitude := none, longitude := none, altitude := none } ∧
    DbusService.refresh (.ok { status := { code := 0, message := m }, lla := none })
        tree
      = ({ tree with fix := 0 }, none) ∧
    p.latitude.isSome = p.longitude.isSome ∧
    p.latitude.isSome = p.altitude.isSome := by
  refine ⟨rfl, rfl, ?_, ?_⟩ <;>
  · unfold get_position make_request at h
    rcases t with e | r
    · simp at h
    · by_cases hc : r.status.code = 0
      · rcases hr : r.lla with _ | l <;> simp_all <;>
          simp [← h]
      · simp_all

/-- Witness for C10 at a concrete input: a status-0 response carrying a full
`lla` triple, whose Position has all three fields present. -/
theorem get_position_all_or_nothing_witness :
    get_position (.ok { status := { code := 0, message := "" }, lla := none })
      = .ok { latitude := none, longitude := none, altitude := none } ∧
    DbusService.refresh (.ok { status := { code := 0, message := "" }, lla := none })
        sampleTree
      = ({ sampleTree with fix := 0 }, none) ∧
    (Position.mk (some 1) (some 2) (some 3)).latitude.isSome
      = (Position.mk (some 1) (some 2) (some 3)).longitude.isSome ∧
    (Position.mk (some 1) (some 2) (some 3)).latitude.isSome
      = (Position.mk (some 1) (some 2) (some 3)).altitude.isSome :=
  get_position_all_or_nothing "" sampleTree
    (.ok { status := { code := 0, message := "" },
           lla := some { lat := 1, lon := 2, alt := 3 } })
    (Position.mk (some 1) (some 2) (some 3)) (by rfl)
